import Mathlib

/-!
Shallow embedding of the book persistence layer of the repository
(src/internal/data/books.go, the schema in src/migrations, and the
handler configuration in src/cmd/api).  Machine integers of the source
(int32/int64) are modelled as `Int`; none of the verified properties
depends on overflow.  The parts of the program that books.go calls but
whose source files are not in the tree (the validator package, the
Filters struct with its helper methods, and calculateMetadata) are
modelled from the specification and marked as such in their doc
comments.
-/

namespace Greenlight

/-- SQL parameter values as bound by the pgx driver: an integer, a text
value, or a text array, where `none` models a nil Go slice transmitted
as SQL NULL. -/
inductive Val
  | int (n : Int)
  | str (s : String)
  | strArr (a : Option (List String))
deriving DecidableEq

/-- Numeric value of a list of decimal digit characters. -/
def digitsToNat (ds : List Char) : Nat :=
  ds.foldl (fun a c => a * 10 + (c.toNat - 48)) 0

/-- Indices of the positional placeholders occurring in a character
stream: each occurrence of a dollar sign followed by digits contributes
the number formed by those digits. -/
def placeholderNums : List Char → List Nat
  | [] => []
  | c :: rest =>
    if c = '$' then
      let ds := rest.takeWhile Char.isDigit
      if ds = [] then placeholderNums rest
      else digitsToNat ds :: placeholderNums rest
    else placeholderNums rest

/-- Number of parameters a SQL statement expects: the highest positional
placeholder index appearing in its text (0 when there is none).  The
pgx driver rejects an Exec/Query call whose argument count differs from
this number before any row is touched. -/
def numParams (q : String) : Nat :=
  (placeholderNums q.toList).foldl Nat.max 0

/-- Text of the INSERT statement of BookModel.Insert (books.go lines 48 to 51). -/
def insertQuery : String :=
  "\nINSERT INTO books (title, sales, pages, year, runtime, genres)\nVALUES ($1, $2, $3, $4, $5, $6)\nRETURNING id, created_at, version"

/-- Text of the SELECT statement of BookModel.Get (books.go lines 69 to 72). -/
def getQuery : String :=
  "\nSELECT id, created_at, title, sales, pages, year, runtime, genres, version\nFROM books\nWHERE id = $1"

/-- Text of the statement issued by BookModel.Update (books.go lines 109
to 114): a SELECT over the books table filtered by title text-search and
genre containment, not a conditional UPDATE. -/
def updateQuery : String :=
  "\nSELECT id, created_at, title, sales, pages, year, runtime, genres, version\nFROM books\nWHERE (to_tsvector(\x27simple\x27, title) @@ plainto_tsquery(\x27simple\x27, $1) OR $1 = \x27\x27)\nAND (genres @> $2 OR $2 = \x27\x7b\x7d\x27)\nORDER BY id"

/-- Text of the DELETE statement of BookModel.Delete (books.go lines 151 to 153). -/
def deleteQuery : String :=
  "\nDELETE FROM books\nWHERE id = $1"

/-- Text of the SELECT statement of BookModel.GetAll (books.go lines 180
to 186), after the sort column and direction have been interpolated by
fmt.Sprintf. -/
def getAllQuery (sortCol sortDir : String) : String :=
  "\nSELECT count(*) OVER(), id, created_at, title, sales, pages, year, runtime, genres, version\nFROM books\nWHERE (to_tsvector(\x27simple\x27, title) @@ plainto_tsquery(\x27simple\x27, $1) OR $1 = \x27\x27)\nAND (genres @> $2 OR $2 = \x27\x7b\x7d\x27)\nORDER BY " ++ sortCol ++ " " ++ sortDir ++ ", id ASC\nLIMIT $3 OFFSET $4"

/-- Row of the books table, mirroring the schema of
src/migrations/000001_create_books_table.up.sql: bigserial id,
created_at with default NOW(), sales, pages, title, year, runtime,
genres (non-null text array), version with default 1. -/
structure Row where
  id : Int
  created_at : Int
  sales : Int
  pages : Int
  title : String
  year : Int
  runtime : Int
  genres : List String
  version : Int
deriving DecidableEq

/-- Store-level failures surfaced by the driver. -/
inductive DBError
  | noRows
  | bindCountMismatch (expected got : Nat)
  | scanArityMismatch (cols dests : Nat)
  | paramTypeMismatch
  | notNullViolation
  | connFailure
deriving DecidableEq

/-- State of the books table: its rows, the next bigserial value, the
clock value used for the created_at default, and an optional injected
store fault (`some e` models a connection or server failure that makes
the next statement fail with `e`). -/
structure DB where
  rows : List Row
  nextId : Int
  now : Int
  err : Option DBError
deriving DecidableEq

/-- Errors returned by the Go data layer: the sentinel errors of
src/unnamed/part_000 plus pass-through of driver errors. -/
inductive RepoError
  | recordNotFound
  | editConflict
  | storage (e : DBError)
deriving DecidableEq

/-- The Books entity struct (books.go lines 13 to 23).  `Genres = none`
models a nil Go slice, distinct from an empty one. -/
structure Books where
  ID : Int := 0
  CreatedAt : Int := 0
  Title : String := ""
  Sales : Int := 0
  Pages : Int := 0
  Year : Int := 0
  Runtime : Int := 0
  Genres : Option (List String) := none
  Version : Int := 0
deriving DecidableEq

/-- Conversion of a stored row back into the entity struct, as performed
by the Scan calls of Get and GetAll. -/
def rowToBooks (r : Row) : Books :=
  { ID := r.id, CreatedAt := r.created_at, Title := r.title, Sales := r.sales,
    Pages := r.pages, Year := r.year, Runtime := r.runtime,
    Genres := some r.genres, Version := r.version }

/-- Lexemes produced by the simple text-search configuration of the
store: lowercased maximal alphanumeric substrings. -/
def simpleLexemes (s : String) : List String :=
  ((s.map Char.toLower).split (fun c => !c.isAlphanum)).filter (fun w => !(w == ""))

/-- Semantics of the title clause
to_tsvector(simple, title) matched against plainto_tsquery(simple, q):
every lexeme of the query occurs in the title, and the query has at
least one lexeme (an empty tsquery matches nothing). -/
def tsTitleMatch (title q : String) : Bool :=
  let qs := simpleLexemes q
  !qs.isEmpty && qs.all (fun w => (simpleLexemes title).contains w)

/-- The WHERE clause shared by the updateQuery and getAllQuery
statements, for a text parameter p1 and an array parameter p2:
(title matches p1 OR p1 is empty) AND (genres contains p2 OR p2 = empty array). -/
def booksWhere (p1 : String) (p2 : List String) (r : Row) : Bool :=
  (tsTitleMatch r.title p1 || p1 == "") &&
  (p2.all (fun g => r.genres.contains g) || p2.isEmpty)

/-- Evaluation of that WHERE clause given the two bound parameter
values.  A non-text p1 or non-array p2 is a parameter type error; a
NULL array makes the second disjunct SQL-NULL, so no row satisfies the
clause. -/
def runBooksWhere (db : DB) (p1 p2 : Val) : Except DBError (List Row) :=
  match p1, p2 with
  | .str t, .strArr (some gs) => .ok (db.rows.filter (booksWhere t gs))
  | .str _, .strArr none => .ok []
  | _, _ => .error .paramTypeMismatch

/-- Insertion into a list sorted by `le`, keeping existing elements
first among equals. -/
def insertSorted (le : Row → Row → Bool) (r : Row) : List Row → List Row
  | [] => [r]
  | x :: xs => if le r x then r :: x :: xs else x :: insertSorted le r xs

/-- Insertion sort of rows by `le`. -/
def sortRows (le : Row → Row → Bool) : List Row → List Row
  | [] => []
  | x :: xs => insertSorted le x (sortRows le xs)

/-- Strict comparison of two rows on one named column. -/
def rowKeyLt (col : String) (a b : Row) : Bool :=
  if col == "id" then decide (a.id < b.id)
  else if col == "title" then decide (a.title < b.title)
  else if col == "sales" then decide (a.sales < b.sales)
  else if col == "pages" then decide (a.pages < b.pages)
  else if col == "year" then decide (a.year < b.year)
  else if col == "runtime" then decide (a.runtime < b.runtime)
  else false

/-- Row order realised by ORDER BY col dir, id ASC. -/
def rowLe (col dir : String) (a b : Row) : Bool :=
  if rowKeyLt col a b then dir == "ASC"
  else if rowKeyLt col b a then !(dir == "ASC")
  else decide (a.id ≤ b.id)

/-- Arguments bound by BookModel.Insert (books.go line 53). -/
def insertArgs (book : Books) : List Val :=
  [.str book.Title, .int book.Sales, .int book.Pages, .int book.Year,
   .int book.Runtime, .strArr book.Genres]

/-- BookModel.Insert (books.go lines 46 to 58): executes insertQuery
with six bound arguments; on success the store assigns id, created_at
and version = 1 (schema defaults) and the RETURNING values are scanned
back into the entity.  A nil genres slice violates the NOT NULL
constraint of the schema. -/
def BookModel.Insert (db : DB) (book : Books) : Except RepoError (DB × Books) :=
  let args := insertArgs book
  match db.err with
  | some e => .error (.storage e)
  | none =>
    if numParams insertQuery = args.length then
      match book.Genres with
      | none => .error (.storage .notNullViolation)
      | some gs =>
        let row : Row :=
          { id := db.nextId, created_at := db.now, sales := book.Sales,
            pages := book.Pages, title := book.Title, year := book.Year,
            runtime := book.Runtime, genres := gs, version := 1 }
        .ok ({ db with rows := db.rows ++ [row], nextId := db.nextId + 1 },
             { book with ID := row.id, CreatedAt := row.created_at, Version := row.version })
    else .error (.storage (.bindCountMismatch (numParams insertQuery) args.length))

/-- BookModel.Get (books.go lines 60 to 105): short-circuits to
ErrRecordNotFound for id below 1 without touching the store; otherwise
runs getQuery with the id bound to its single placeholder and maps the
no-rows outcome to ErrRecordNotFound, passing other store errors
through. -/
def BookModel.Get (db : DB) (id : Int) : Except RepoError Books :=
  if id < 1 then .error .recordNotFound
  else
    match db.err with
    | some e => .error (if e = .noRows then .recordNotFound else .storage e)
    | none =>
      if numParams getQuery = 1 then
        match db.rows.find? (fun r => r.id == id) with
        | none => .error .recordNotFound
        | some r => .ok (rowToBooks r)
      else .error (.storage (.bindCountMismatch (numParams getQuery) 1))

/-- Arguments bound by BookModel.Update (books.go lines 116 to 125). -/
def updateArgs (book : Books) : List Val :=
  [.str book.Title, .int book.Year, .int book.Sales, .int book.Pages,
   .int book.Runtime, .strArr book.Genres, .int book.ID, .int book.Version]

/-- BookModel.Update (books.go lines 107 to 143): executes updateQuery
(a read-only SELECT with two placeholders) with eight bound arguments
and scans the single destination book.Version from the result.  The
no-rows outcome is mapped to ErrEditConflict; every other store error
is passed through.  The bind gate fires first: the driver rejects a
call whose argument count differs from the statement parameter count,
so neither the row filter nor the scan is ever reached. -/
def BookModel.Update (db : DB) (book : Books) : Except RepoError (DB × Books) :=
  let args := updateArgs book
  match db.err with
  | some e => .error (if e = .noRows then .editConflict else .storage e)
  | none =>
    if numParams updateQuery = args.length then
      match runBooksWhere db (.str book.Title) (.int book.Year) with
      | .error e => .error (if e = .noRows then .editConflict else .storage e)
      | .ok [] => .error .editConflict
      | .ok (_ :: _) => .error (.storage (.scanArityMismatch 9 1))
    else .error (.storage (.bindCountMismatch (numParams updateQuery) args.length))

/-- BookModel.Delete (books.go lines 145 to 176): short-circuits to
ErrRecordNotFound for id below 1; otherwise executes deleteQuery with
the id bound to its single placeholder, and reports ErrRecordNotFound
exactly when zero rows were affected. -/
def BookModel.Delete (db : DB) (id : Int) : Except RepoError DB :=
  if id < 1 then .error .recordNotFound
  else
    match db.err with
    | some e => .error (.storage e)
    | none =>
      if numParams deleteQuery = 1 then
        let rowsAffected := (db.rows.filter (fun r => r.id == id)).length
        if rowsAffected = 0 then .error .recordNotFound
        else .ok { db with rows := db.rows.filter (fun r => !(r.id == id)) }
      else .error (.storage (.bindCountMismatch (numParams deleteQuery) 1))

/-- Modelled from the spec: the validator package imported by books.go
is not in the source tree.  Spec section 4.1: validate returns a list of
(field, message) pairs, all failures reported together, never
fail-fast. -/
structure Validator where
  Errors : List (String × String)
deriving DecidableEq

/-- Modelled from the spec: a fresh validator with no recorded failures. -/
def Validator.New : Validator := ⟨[]⟩

/-- Modelled from the spec: Check records the (field, message) pair when
the condition fails and leaves the validator unchanged when it holds;
checks are independent, so failures accumulate. -/
def Validator.Check (v : Validator) (ok : Prop) [Decidable ok] (key message : String) : Validator :=
  if ok then v else { Errors := v.Errors ++ [(key, message)] }

/-- Modelled from the spec: validator.Unique holds when the list entries
are pairwise distinct. -/
def Unique : List String → Bool
  | [] => true
  | x :: xs => !xs.contains x && Unique xs

/-- Presence of at least one recorded failure keyed to `key`. -/
def Validator.errorOn (v : Validator) (key : String) : Prop :=
  ∃ m, (key, m) ∈ v.Errors

/-- ValidateBook (books.go lines 25 to 40), with the ambient
time.Now().Year() made an explicit currentYear argument and Go byte
length rendered as utf8ByteSize.  Go len of a nil slice is 0, rendered
as the length of `Genres.getD []`. -/
def ValidateBook (currentYear : Int) (v : Validator) (book : Books) : Validator :=
  ((((((((((((((v.Check (book.Title ≠ "") ("title") ("must be provided")).Check
    (book.Title.utf8ByteSize ≤ 500) ("title") ("must not be more than 500 bytes long")).Check
    (book.Year ≠ 0) ("year") ("must be provided")).Check
    (book.Year ≥ 1888) ("year") ("must be greater than 1888")).Check
    (book.Year ≤ currentYear) ("year") ("must not be in the future")).Check
    (book.Runtime ≠ 0) ("runtime") ("must be provided")).Check
    (book.Runtime > 0) ("runtime") ("must be a positive integer")).Check
    (book.Genres ≠ none) ("genres") ("must be provided")).Check
    ((book.Genres.getD []).length ≥ 1) ("genres") ("must contain at least 1 genre")).Check
    ((book.Genres.getD []).length ≤ 5) ("genres") ("must not contain more than 5 genres")).Check
    (Unique (book.Genres.getD [])) ("genres") ("must not contain duplicate values")).Check
    (book.Sales ≥ 0) ("sales") ("must positive")).Check
    (book.Pages ≥ 0) ("pages") ("must be positive")).Check
    (book.Pages ≤ 10000) ("pages") ("must be less than 10000"))

/-- Pagination summary, spec section 3: all fields zero when
totalRecords is 0. -/
structure Metadata where
  currentPage : Int
  pageSize : Int
  firstPage : Int
  lastPage : Int
  totalRecords : Int
deriving DecidableEq

/-- The all-zero Metadata value. -/
def Metadata.zero : Metadata :=
  { currentPage := 0, pageSize := 0, firstPage := 0, lastPage := 0, totalRecords := 0 }

/-- Modelled from the spec: calculateMetadata is called by GetAll
(books.go line 234) but its source file is not in the tree.  Spec
section 4.4: if totalRecords = 0 return all-zero Metadata, otherwise
firstPage = 1, lastPage = ceil(totalRecords / pageSize), and the other
inputs passed through. -/
def calculateMetadata (totalRecords page pageSize : Int) : Metadata :=
  if totalRecords = 0 then Metadata.zero
  else
    { currentPage := page, pageSize := pageSize, firstPage := 1,
      lastPage := Int.ceil ((totalRecords : ℚ) / (pageSize : ℚ)),
      totalRecords := totalRecords }

/-- Modelled from the spec: the Filters struct used by books.go and the
handlers of src/cmd/api is not in the source tree.  Spec section 3: a
Filter Spec carries page, pageSize, sort field, the safelist of
permitted sort values, and numeric filters (the handler reads a sales
filter into it). -/
structure Filters where
  Page : Int
  PageSize : Int
  sort : String
  SortSafelist : List String
  Sales : Int := 0
deriving DecidableEq

/-- The safelist installed by the listBooksHandler of src/cmd/api. -/
def bookSortSafelist : List String :=
  ["id", "title", "sales", "pages", "year", "runtime",
   "-id", "-sales", "-pages", "-title", "-year", "-runtime"]

/-- Whether a sort value requests descending order, marked by a leading
hyphen. -/
def hyphenLed (s : String) : Bool :=
  match s.toList with
  | '-' :: _ => true
  | _ => false

/-- Removal of the descending-order marker from a sort value. -/
def stripHyphen (s : String) : String :=
  match s.toList with
  | '-' :: rest => String.mk rest
  | _ => s

/-- Modelled from the spec: sortColumn resolves the requested sort field
through the safelist to a concrete column name, stripping a leading
hyphen; a value outside the safelist panics, modelled as `none`. -/
def Filters.sortColumn (f : Filters) : Option String :=
  if f.SortSafelist.contains f.sort then some (stripHyphen f.sort)
  else none

/-- Modelled from the spec: sortDirection is DESC for a hyphen-led sort
value and ASC otherwise. -/
def Filters.sortDirection (f : Filters) : String :=
  if hyphenLed f.sort then "DESC" else "ASC"

/-- Modelled from the spec: LIMIT is the page size. -/
def Filters.limit (f : Filters) : Int := f.PageSize

/-- Modelled from the spec: OFFSET skips the earlier pages. -/
def Filters.offset (f : Filters) : Int := (f.Page - 1) * f.PageSize

/-- Arguments bound by BookModel.GetAll (books.go line 192): six values
for a statement with four placeholders. -/
def getAllArgs (title : String) (sales pages : Int) (genres : List String) (f : Filters) : List Val :=
  [.str title, .int sales, .int pages, .strArr (some genres),
   .int f.limit, .int f.offset]

/-- BookModel.GetAll (books.go lines 178 to 238): interpolates the
safelisted sort column and direction into getAllQuery (a non-safelisted
sort value panics inside sortColumn, modelled as `none`), binds the six
arguments of getAllArgs, and on success scans the windowed total count
and rows, feeding the count into calculateMetadata.  The bind gate
fires first: the statement has four placeholders but six arguments are
bound, so the driver rejects every call before any row is read. -/
def BookModel.GetAll (db : DB) (title : String) (sales pages : Int)
    (genres : List String) (filters : Filters) :
    Option (Except RepoError (List Books × Metadata)) :=
  filters.sortColumn.map fun col =>
    let query := getAllQuery col filters.sortDirection
    let args := getAllArgs title sales pages genres filters
    match db.err with
    | some e => .error (.storage e)
    | none =>
      if numParams query = args.length then
        match runBooksWhere db (.str title) (.strArr (some genres)) with
        | .error e => .error (.storage e)
        | .ok rows =>
          let sorted := sortRows (rowLe col filters.sortDirection) rows
          let pageRows := (sorted.drop filters.offset.toNat).take filters.limit.toNat
          let totalRecords : Int := if pageRows.isEmpty then 0 else rows.length
          .ok (pageRows.map rowToBooks,
               calculateMetadata totalRecords filters.Page filters.PageSize)
      else .error (.storage (.bindCountMismatch (numParams query) args.length))

/-- Well-formed store state: the bigserial counter starts at 1 and every
persisted row has an id below the next value to be assigned. -/
def DB.WF (db : DB) : Prop :=
  1 ≤ db.nextId ∧ ∀ r ∈ db.rows, r.id < db.nextId

/-- An empty, fault-free store. -/
def emptyDB : DB := { rows := [], nextId := 1, now := 0, err := none }

/-- A persisted row used as concrete test data (the Dune scenario of the
spec). -/
def duneRow : Row :=
  { id := 1, created_at := 7, sales := 100, pages := 412, title := "Dune",
    year := 1965, runtime := 1, genres := ["scifi"], version := 1 }

/-- A fault-free store holding exactly the Dune row. -/
def duneDB : DB := { rows := [duneRow], nextId := 2, now := 8, err := none }

/-- The Dune entity as a caller would supply it to Insert. -/
def duneBook : Books :=
  { Title := "Dune", Sales := 100, Pages := 412, Year := 1965, Runtime := 1,
    Genres := some ["scifi"] }

/-- An edit of the Dune row carrying the observed version 1, as a caller
would supply it to Update. -/
def duneEdit : Books :=
  { ID := 1, CreatedAt := 7, Title := "Dune Messiah", Sales := 120,
    Pages := 412, Year := 1969, Runtime := 1, Genres := some ["scifi"],
    Version := 1 }

/-- The filter a handler builds for a plain first-page listing sorted by
id. -/
def stdFilters : Filters :=
  { Page := 1, PageSize := 20, sort := "id", SortSafelist := bookSortSafelist }

deriving instance DecidableEq for Except

/-! Theorems. -/

/-- Check either leaves the validator unchanged or appends its pair, so
a key is reported after the call exactly when it was already reported or
this check failed for that key. -/
theorem Validator.errorOn_Check (v : Validator) (ok : Prop) [Decidable ok] (k m key : String) :
    (v.Check ok k m).errorOn key ↔ v.errorOn key ∨ (¬ ok ∧ k = key) := by
  by_cases h : ok <;>
    simp [Validator.Check, Validator.errorOn, h, List.mem_append, eq_comm, exists_or]

/-- A fresh validator reports nothing. -/
theorem Validator.errorOn_New (key : String) : ¬ Validator.New.errorOn key := by
  simp [Validator.New, Validator.errorOn]

/-- C2: every call to Update fails and the books table is never
modified.  The statement Update issues is a read-only SELECT (its text
begins with the SELECT keyword) with two positional placeholders, while
eight arguments are bound; the driver therefore rejects every call, no
success value is ever produced, and when no store fault is injected the
error is exactly the bind-count mismatch of two placeholders against
eight arguments.  Failure carries no new store state, so the table is
unchanged on every path. -/
theorem update_always_fails_claim (db : DB) (book : Books) :
    updateQuery.toList.take 7 = ['\n', 'S', 'E', 'L', 'E', 'C', 'T'] ∧
    numParams updateQuery = 2 ∧
    (updateArgs book).length = 8 ∧
    (∃ e, BookModel.Update db book = .error e) ∧
    (∀ out, BookModel.Update db book ≠ .ok out) ∧
    (db.err = none →
      BookModel.Update db book = .error (.storage (.bindCountMismatch 2 8))) := by
  refine ⟨by decide, by decide, rfl, ?_, ?_, ?_⟩ <;>
    rcases herr : db.err with _ | e <;>
      simp [BookModel.Update, herr, updateArgs, show numParams updateQuery = 2 from by decide]

/-- Witness for C2 at a concrete store and book: the bind-count
mismatch is the outcome. -/
theorem update_always_fails_claim_witness :
    BookModel.Update emptyDB {} = .error (.storage (.bindCountMismatch 2 8)) :=
  (update_always_fails_claim emptyDB {}).2.2.2.2.2 rfl

/-- C1 (evidence for the code bug): at a store holding the Dune row and
an edit carrying the matching id 1 and observed version 1, the claimed
compare-and-swap update does not happen; the call returns the bind-count
storage error (two placeholders, eight arguments) instead of succeeding
with version 2, and no store state is produced. -/
theorem update_cas_code_bug :
    BookModel.Update duneDB duneEdit = .error (.storage (.bindCountMismatch 2 8)) ∧
    ∀ out, BookModel.Update duneDB duneEdit ≠ .ok out := by
  constructor
  · decide
  · intro out h
    rw [show BookModel.Update duneDB duneEdit =
          .error (.storage (.bindCountMismatch 2 8)) from by decide] at h
    exact Except.noConfusion h

/-- C3 (evidence for the code bug): a first-page listing with empty text
query and empty genre set over a store holding one row does not return
that row ordered by the safelisted sort field; it fails with the
bind-count storage error of four placeholders against six bound
arguments. -/
theorem getAll_list_code_bug :
    BookModel.GetAll duneDB "" 0 0 [] stdFilters =
      some (.error (.storage (.bindCountMismatch 4 6))) := by
  decide

/-- C6: Get short-circuits every id below 1 to ErrRecordNotFound with a
result independent of the store state (no store interaction); for ids at
least 1 on a fault-free store it fails with ErrRecordNotFound exactly
when no row carries the id and succeeds when one does; any other store
failure surfaces as a storage error. -/
theorem get_claim (db : DB) (id : Int) :
    (id < 1 → ∀ db2 : DB, BookModel.Get db2 id = .error .recordNotFound) ∧
    (1 ≤ id → db.err = none →
      ((BookModel.Get db id = .error .recordNotFound ↔ ∀ r ∈ db.rows, r.id ≠ id) ∧
       ((∃ r ∈ db.rows, r.id = id) → ∃ b, BookModel.Get db id = .ok b))) ∧
    (1 ≤ id → ∀ e, db.err = some e → e ≠ .noRows →
      BookModel.Get db id = .error (.storage e)) := by
  have hq : numParams getQuery = 1 := by decide
  refine ⟨fun h db2 => by simp [BookModel.Get, h], fun h1 herr => ?_,
    fun h1 e herr hne => by simp [BookModel.Get, not_lt.mpr h1, herr, hne]⟩
  have hnot : ¬ id < 1 := not_lt.mpr h1
  have hred : BookModel.Get db id =
      (match db.rows.find? (fun r => r.id == id) with
       | none => .error .recordNotFound
       | some r => .ok (rowToBooks r)) := by
    simp [BookModel.Get, hnot, herr, hq]
  rcases hf : db.rows.find? (fun r => r.id == id) with _ | r <;> rw [hf] at hred
  · have hall : ∀ r ∈ db.rows, r.id ≠ id := by
      intro r hr
      have := List.find?_eq_none.mp hf r hr
      simpa using this
    refine ⟨iff_of_true hred hall, ?_⟩
    rintro ⟨r, hr, hid⟩
    exact absurd hid (hall r hr)
  · have hmem := List.mem_of_find?_eq_some hf
    have hid : r.id = id := by simpa using List.find?_some hf
    exact ⟨iff_of_false (by simp [hred]) (fun hall => hall r hmem hid),
      fun _ => ⟨rowToBooks r, hred⟩⟩

/-- Witness for C6 at concrete inputs: id 0 is rejected without store
interaction, and id 5 against an empty store is not found. -/
theorem get_claim_witness :
    BookModel.Get emptyDB 0 = .error .recordNotFound ∧
    BookModel.Get emptyDB 5 = .error .recordNotFound :=
  ⟨(get_claim emptyDB 0).1 (by decide) emptyDB,
   ((get_claim emptyDB 5).2.1 (by decide) rfl).1.mpr (by simp [emptyDB])⟩

/-- C7: Delete short-circuits every id below 1 to ErrRecordNotFound;
for ids at least 1 on a fault-free store it fails with
ErrRecordNotFound exactly when no row carries the id (zero rows
affected), succeeds when one does, and repeating the call on the state
it produced fails with ErrRecordNotFound again. -/
theorem delete_claim (db : DB) (id : Int) :
    (id < 1 → BookModel.Delete db id = .error .recordNotFound) ∧
    (1 ≤ id → db.err = none →
      ((BookModel.Delete db id = .error .recordNotFound ↔ ∀ r ∈ db.rows, r.id ≠ id) ∧
       ((∃ r ∈ db.rows, r.id = id) → ∃ db2, BookModel.Delete db id = .ok db2) ∧
       (∀ db2, BookModel.Delete db id = .ok db2 →
          BookModel.Delete db2 id = .error .recordNotFound))) := by
  have hq : numParams deleteQuery = 1 := by decide
  refine ⟨fun h => by simp [BookModel.Delete, h], fun h1 herr => ?_⟩
  have hnot : ¬ id < 1 := not_lt.mpr h1
  by_cases hz : (db.rows.filter (fun r => r.id == id)).length = 0
  · have hall : ∀ r ∈ db.rows, r.id ≠ id := by
      intro r hr hid
      have hnil := List.length_eq_zero.mp hz
      have := List.filter_eq_nil_iff.mp hnil r hr
      simp [hid] at this
    refine ⟨iff_of_true (by simp [BookModel.Delete, hnot, herr, hq, hz]) hall, ?_, ?_⟩
    · rintro ⟨r, hr, hid⟩
      exact absurd hid (hall r hr)
    · intro db2 hok
      rw [show BookModel.Delete db id = .error .recordNotFound from
            by simp [BookModel.Delete, hnot, herr, hq, hz]] at hok
      exact Except.noConfusion hok
  · have hok : BookModel.Delete db id =
        .ok { db with rows := db.rows.filter (fun r => !(r.id == id)) } := by
      simp [BookModel.Delete, hnot, herr, hq, hz]
    have hnall : ¬ ∀ r ∈ db.rows, r.id ≠ id := by
      intro hall
      apply hz
      rw [List.length_eq_zero, List.filter_eq_nil_iff]
      intro r hr
      simp [hall r hr]
    refine ⟨iff_of_false (by simp [hok]) hnall, fun _ => ⟨_, hok⟩, ?_⟩
    intro db2 h2
    rw [hok] at h2
    cases h2
    have hgone : ((db.rows.filter (fun r => !(r.id == id))).filter
        (fun r => r.id == id)).length = 0 := by
      rw [List.length_eq_zero, List.filter_eq_nil_iff]
      intro r hr
      have := (List.mem_filter.mp hr).2
      simp at this
      simp [this]
    simp [BookModel.Delete, hnot, herr, hq, hgone]

/-- Witness for C7 at concrete inputs: deleting id 1 from an empty
store is not found, deleting the Dune row succeeds, and repeating that
delete on the resulting store is not found. -/
theorem delete_claim_witness :
    BookModel.Delete emptyDB 1 = .error .recordNotFound ∧
    ∃ db2, BookModel.Delete duneDB 1 = .ok db2 ∧
      BookModel.Delete db2 1 = .error .recordNotFound := by
  refine ⟨((delete_claim emptyDB 1).2 (by decide) rfl).1.mpr (by simp [emptyDB]), ?_⟩
  obtain ⟨db2, hdb2⟩ := ((delete_claim duneDB 1).2 (by decide) rfl).2.1
    ⟨duneRow, by simp [duneDB], by decide⟩
  exact ⟨db2, hdb2, ((delete_claim duneDB 1).2 (by decide) rfl).2.2 db2 hdb2⟩

/-- Unique decides pairwise distinctness. -/
theorem Unique_eq_true_iff (l : List String) : Unique l = true ↔ l.Nodup := by
  induction l with
  | nil => simp [Unique]
  | cons x xs ih => simp [Unique, ih, List.nodup_cons]

/-- Characterization of the genres-keyed failures reported by
ValidateBook: exactly the nil, too-short, too-long and duplicated
cases. -/
theorem validateBook_errorOn_genres (cy : Int) (book : Books) :
    (ValidateBook cy Validator.New book).errorOn "genres" ↔
      book.Genres = none ∨ (book.Genres.getD []).length < 1 ∨
        5 < (book.Genres.getD []).length ∨ ¬ (book.Genres.getD []).Nodup := by
  simp only [ValidateBook, Validator.errorOn_Check]
  simp [Validator.errorOn_New, Unique_eq_true_iff, not_le, not_lt]
  tauto

/-- C8: ValidateBook reports a genres-keyed failure for every book whose
genres list is nil, contains a duplicate, or has length 0 or above 5;
and it reports no genres-keyed failure for a book whose genres list has
one to five pairwise-distinct entries. -/
theorem validateBook_genres_claim (cy : Int) (book : Books) :
    ((book.Genres = none ∨ ¬ (book.Genres.getD []).Nodup ∨
        (book.Genres.getD []).length = 0 ∨ 5 < (book.Genres.getD []).length) →
      (ValidateBook cy Validator.New book).errorOn "genres") ∧
    (∀ gs, book.Genres = some gs → 1 ≤ gs.length → gs.length ≤ 5 → gs.Nodup →
      ¬ (ValidateBook cy Validator.New book).errorOn "genres") := by
  constructor
  · intro h
    apply (validateBook_errorOn_genres cy book).mpr
    rcases h with h | h | h | h
    · exact Or.inl h
    · exact Or.inr (Or.inr (Or.inr h))
    · exact Or.inr (Or.inl (by omega))
    · exact Or.inr (Or.inr (Or.inl h))
  · intro gs hgs h1 h5 hnd hcon
    rcases (validateBook_errorOn_genres cy book).mp hcon with h | h | h | h
    · rw [hgs] at h
      exact Option.noConfusion h
    · rw [hgs] at h
      simp only [Option.getD_some] at h
      omega
    · rw [hgs] at h
      simp only [Option.getD_some] at h
      omega
    · rw [hgs] at h
      exact h hnd

/-- Witness for C8 at concrete books: a duplicated genres list is
reported under the genres key, the valid Dune book is not. -/
theorem validateBook_genres_claim_witness :
    (ValidateBook 2024 Validator.New { Genres := some ["a", "a"] }).errorOn "genres" ∧
    ¬ (ValidateBook 2024 Validator.New duneBook).errorOn "genres" :=
  ⟨(validateBook_genres_claim 2024 { Genres := some ["a", "a"] }).1
      (Or.inr (Or.inl (by decide))),
   (validateBook_genres_claim 2024 duneBook).2 ["scifi"] rfl (by decide) (by decide)
      (by decide)⟩

/-- Rows that all fail the scan are skipped by find?. -/
theorem find?_append_of_none (l1 l2 : List Row) (p : Row → Bool)
    (h : ∀ x ∈ l1, p x = false) : (l1 ++ l2).find? p = l2.find? p := by
  induction l1 with
  | nil => rfl
  | cons x xs ih =>
    have hx := h x (List.mem_cons_self x xs)
    simp [List.find?_cons, hx, ih (fun y hy => h y (List.mem_cons_of_mem x hy))]

/-- C5: on a well-formed fault-free store, inserting a book that passed
validation succeeds, writes the store-assigned id, createdAt and
version 1 back into the caller entity while leaving the caller-supplied
fields untouched, and a subsequent Get of the assigned id returns
exactly that entity. -/
theorem insert_get_roundtrip_claim (db : DB) (book : Books) (cy : Int)
    (hwf : db.WF) (herr : db.err = none)
    (hvalid : (ValidateBook cy Validator.New book).Errors = []) :
    ∃ db2 inserted,
      BookModel.Insert db book = .ok (db2, inserted) ∧
      inserted = { book with ID := db.nextId, CreatedAt := db.now, Version := 1 } ∧
      inserted.Version = 1 ∧
      BookModel.Get db2 inserted.ID = .ok inserted := by
  obtain ⟨hnext, hids⟩ := hwf
  have hgen : book.Genres ≠ none := by
    intro hnone
    obtain ⟨m, hm⟩ := (validateBook_errorOn_genres cy book).mpr (Or.inl hnone)
    rw [hvalid] at hm
    exact absurd hm (List.not_mem_nil _)
  obtain ⟨gs, hgs⟩ := Option.ne_none_iff_exists'.mp hgen
  have hq6 : numParams insertQuery = 6 := by decide
  set newRow : Row :=
    { id := db.nextId, created_at := db.now, sales := book.Sales,
      pages := book.Pages, title := book.Title, year := book.Year,
      runtime := book.Runtime, genres := gs, version := 1 } with hrow
  have hins : BookModel.Insert db book =
      .ok ({ db with rows := db.rows ++ [newRow], nextId := db.nextId + 1 },
           { book with ID := db.nextId, CreatedAt := db.now, Version := 1 }) := by
    simp [BookModel.Insert, herr, hgs, insertArgs, hq6, hrow]
  refine ⟨_, _, hins, rfl, rfl, ?_⟩
  have hfind : (db.rows ++ [newRow]).find? (fun r => r.id == db.nextId) = some newRow := by
    rw [find?_append_of_none]
    · simp [List.find?_cons]
    · intro x hx
      have := hids x hx
      simp
      omega
  simp [BookModel.Get, not_lt.mpr hnext, herr, hfind,
    show numParams getQuery = 1 from by decide, rowToBooks, hgs]

/-- Witness for C5: inserting the Dune book into an empty well-formed
store and fetching the assigned id round-trips. -/
theorem insert_get_roundtrip_claim_witness :
    ∃ db2 inserted,
      BookModel.Insert emptyDB duneBook = .ok (db2, inserted) ∧
      inserted = { duneBook with ID := emptyDB.nextId, CreatedAt := emptyDB.now, Version := 1 } ∧
      inserted.Version = 1 ∧
      BookModel.Get db2 inserted.ID = .ok inserted :=
  insert_get_roundtrip_claim emptyDB duneBook 2024
    (by constructor <;> simp [emptyDB]) rfl (by decide)

/-- C9: calculateMetadata yields the all-zero Metadata when
totalRecords is 0; for positive totalRecords it yields firstPage 1,
lastPage the ceiling of totalRecords over pageSize, and passes page,
pageSize and totalRecords through; at (25, 1, 20) this is currentPage 1,
pageSize 20, firstPage 1, lastPage 2, totalRecords 25. -/
theorem calculateMetadata_claim (totalRecords page pageSize : Int) :
    calculateMetadata 0 page pageSize = Metadata.zero ∧
    (0 < totalRecords →
      calculateMetadata totalRecords page pageSize =
        { currentPage := page, pageSize := pageSize, firstPage := 1,
          lastPage := Int.ceil ((totalRecords : ℚ) / (pageSize : ℚ)),
          totalRecords := totalRecords }) ∧
    calculateMetadata 25 1 20 =
      { currentPage := 1, pageSize := 20, firstPage := 1, lastPage := 2,
        totalRecords := 25 } := by
  refine ⟨by simp [calculateMetadata], fun h => ?_, ?_⟩
  · simp [calculateMetadata, show totalRecords ≠ 0 from by omega]
  · have hceil : Int.ceil ((25 : ℚ) / (20 : ℚ)) = 2 := by
      rw [Int.ceil_eq_iff]
      norm_num
    simp [calculateMetadata, hceil]

/-- Witness for C9: the general clause applied at (25, 1, 20). -/
theorem calculateMetadata_claim_witness :
    (0 : Int) < 25 ∧
    calculateMetadata 25 1 20 =
      { currentPage := 1, pageSize := 20, firstPage := 1,
        lastPage := Int.ceil ((25 : ℚ) / (20 : ℚ)), totalRecords := 25 } :=
  ⟨by norm_num, ((calculateMetadata_claim 25 1 20).2.1 (by norm_num)).trans (by norm_num)⟩

/-- Safelisted sort values resolve to statements whose highest
placeholder is 4. -/
theorem numParams_getAllQuery (s : String) (h : s ∈ bookSortSafelist) :
    numParams (getAllQuery (stripHyphen s) (if hyphenLed s then "DESC" else "ASC")) = 4 := by
  simp only [bookSortSafelist, List.mem_cons, List.not_mem_nil, or_false] at h
  rcases h with rfl | rfl | rfl | rfl | rfl | rfl | rfl | rfl | rfl | rfl | rfl | rfl <;>
    decide

/-- C4: under the handler-installed safelist, every GetAll call binds
six arguments (title, sales, pages, genres, limit, offset) to a
statement with four placeholders; on a fault-free store the call fails
with exactly the bind-count storage error, under an injected store
fault it fails with that fault, and no call ever returns a page of
books. -/
theorem getAll_bind_mismatch_claim (db : DB) (title : String) (sales pages : Int)
    (genres : List String) (f : Filters)
    (hsafe : f.SortSafelist = bookSortSafelist) (hmem : f.sort ∈ bookSortSafelist) :
    f.sortColumn = some (stripHyphen f.sort) ∧
    numParams (getAllQuery (stripHyphen f.sort) f.sortDirection) = 4 ∧
    (getAllArgs title sales pages genres f).length = 6 ∧
    (db.err = none →
      BookModel.GetAll db title sales pages genres f =
        some (.error (.storage (.bindCountMismatch 4 6)))) ∧
    (∀ e, db.err = some e →
      BookModel.GetAll db title sales pages genres f = some (.error (.storage e))) ∧
    (∀ res, BookModel.GetAll db title sales pages genres f ≠ some (.ok res)) := by
  have hcol : f.sortColumn = some (stripHyphen f.sort) := by
    rw [Filters.sortColumn, hsafe, if_pos (List.elem_eq_true_of_mem hmem)]
  have hq4 : numParams (getAllQuery (stripHyphen f.sort) f.sortDirection) = 4 := by
    rw [Filters.sortDirection]
    exact numParams_getAllQuery f.sort hmem
  have hred : ∀ e0 : Option DBError, db.err = e0 →
      BookModel.GetAll db title sales pages genres f =
        some (match e0 with
              | some e => .error (.storage e)
              | none => .error (.storage (.bindCountMismatch 4 6))) := by
    intro e0 he0
    rcases e0 with _ | e
    · simp only [BookModel.GetAll, hcol, Option.map_some', he0]
      rw [if_neg (by simp [hq4, getAllArgs])]
      simp [hq4, getAllArgs]
    · simp [BookModel.GetAll, hcol, he0]
  refine ⟨hcol, hq4, rfl, fun he => by simpa using hred none he,
    fun e he => by simpa using hred (some e) he, fun res hres => ?_⟩
  rcases he0 : db.err with _ | e <;> rw [hred _ he0] at hres <;>
    simp at hres

/-- Witness for C4 at a concrete call: empty filter, first page sorted
by id over an empty fault-free store. -/
theorem getAll_bind_mismatch_claim_witness :
    BookModel.GetAll emptyDB "" 0 0 [] stdFilters =
      some (.error (.storage (.bindCountMismatch 4 6))) :=
  (getAll_bind_mismatch_claim emptyDB "" 0 0 [] stdFilters rfl
    (by decide)).2.2.2.1 rfl

end Greenlight
